import Mathlib

/-!
Verification of the robust deserialization subsystem of sciris
(src/sciris/sc_fileio.py): the byte-source decompression cascade
(_load_filestr), the multi-strategy unpickling chain (_unpickler), the
class remapping resolver (_remap_module, _RenamingUnpickler.find_class),
the failure ledger (Failed / makefailed), and the save-side empty-object
guard.  Python functions are shallowly embedded as Lean functions; the
outcomes of external I/O and of the Python import machinery are passed in
as explicit parameters; exceptions are modeled as values carried in
Except, with an identity tag where Python object identity matters.
-/

namespace Sciris

/-- A Python value, as far as the unpickling chain inspects it: the chain
only ever distinguishes the value None (via the test obj is None), instances
of the Failed class, and everything else. -/
inductive PyObj
  | pyNone
  | obj (v : Nat)
  | failedObj (v : Nat)
deriving DecidableEq, Repr

/-- Outcome of one low-level read attempted by _load_filestr.  tyName is the
Python exception type name (the code dispatches on exc == FileNotFoundError
and exc == gz.BadGzipFile), msg is str(E). -/
structure GzError where
  tyName : String
  msg : String
deriving DecidableEq, Repr

/-- The outcomes the external I/O layer would produce for each of the four
read attempts of _load_filestr on a given (filename, folder) input: gzip
decompression, zstandard decompression, raw binary read, raw text read.
These are inputs to the embedding since they are performed by external
libraries. -/
structure FileOutcomes where
  gzipRead : Except GzError String
  zstdRead : Except String String
  binRead : Except String String
  textRead : Except String String
deriving Repr

/-- One step of the decompression cascade that _load_filestr actually
executed (used to state which fallbacks were attempted, in order). -/
inductive LoadStep
  | gzipStep
  | zstdStep
  | binStep
  | textStep
deriving DecidableEq, Repr

/-- The error raised by _load_filestr: kind is the Python exception type
name of the raised exception, msgParts are the pieces concatenated into its
message string, cause is the message of the exception chained with
raise ... from E (if any). -/
structure FilestrError where
  kind : String
  msgParts : List String
  cause : Option String
deriving DecidableEq, Repr

/-- The fixed template of _gziperror(filename): a generic description that
mentions the filename but not the text of the gzip exception itself. -/
def gziperrorText (filename : String) : String :=
  "Unable to load file: " ++ filename ++
  " as either a gzipped, zstandard or regular pickle file. Ensure that it is actually a pickle file."

/-- The fixed message of the unknown-reason branch of _load_filestr. -/
def unknownReasonText : String :=
  "sc.load(): Could not open the file string for an unknown reason; see error above for details"

/-- Shallow embedding of _load_filestr (sc_fileio.py lines 81-125), given
the outcomes of the underlying reads.  Returns the result together with the
ordered list of cascade steps that were executed:
gzip first; on FileNotFoundError raise it directly; on BadGzipFile fall
back to zstd, then raw binary, then raw text, each only if the previous
raised; if all fall-backs raised, raise a BadGzipFile whose message is the
_gziperror template plus the three fallback messages, chained from the
original gzip error; on any other gzip exception raise the unknown-reason
message with the same exception type. -/
def load_filestr (filename : String) (oc : FileOutcomes) :
    Except FilestrError String × List LoadStep :=
  match oc.gzipRead with
  | .ok s => (.ok s, [.gzipStep])
  | .error e =>
    if e.tyName = "FileNotFoundError" then
      (.error { kind := "FileNotFoundError", msgParts := [e.msg], cause := none }, [.gzipStep])
    else if e.tyName = "BadGzipFile" then
      match oc.zstdRead with
      | .ok s => (.ok s, [.gzipStep, .zstdStep])
      | .error e2 =>
        match oc.binRead with
        | .ok s => (.ok s, [.gzipStep, .zstdStep, .binStep])
        | .error e3 =>
          match oc.textRead with
          | .ok s => (.ok s, [.gzipStep, .zstdStep, .binStep, .textStep])
          | .error e4 =>
            (.error { kind := "BadGzipFile",
                      msgParts := [gziperrorText filename, e2, e3, e4],
                      cause := some e.msg },
             [.gzipStep, .zstdStep, .binStep, .textStep])
    else
      (.error { kind := e.tyName, msgParts := [unknownReasonText], cause := some e.msg },
       [.gzipStep])

example :
    load_filestr "f.obj"
      { gzipRead := .ok "abc", zstdRead := .error "z", binRead := .error "b",
        textRead := .error "t" } = (.ok "abc", [.gzipStep]) := by rfl

/-- The keyword allow-list of _unpickler (sc_fileio.py line 2246). -/
def valid_kwargs : List String := ["fix_imports", "encoding", "errors", "buffers", "ignore"]

/-- strjoin of the allow-list, as used in the error message. -/
def strjoin (l : List String) : String := String.intercalate ", " l

/-- The message of the ValueError raised by _unpickler for an invalid keyword. -/
def kwErrMsg (k : String) : String :=
  "Keyword " ++ k ++ " is not a valid keyword: " ++ strjoin valid_kwargs

/-- Embedding of the kwargs sanitation loop of _unpickler (lines 2245-2250):
iterate over the keyword names in order and raise a ValueError at the first
one that is not in the allow-list. -/
def checkKwargs : List String → Except String Unit
  | [] => .ok ()
  | k :: rest =>
    if k ∈ valid_kwargs then checkKwargs rest else .error (kwErrMsg k)

/-- Embedding of the strategy-list selection of _unpickler
(lines 2262-2273): the base list depends on method (any string other than
pickle and dill falls into the final else branch), and when die is falsy the
two permissive strategies are appended. -/
def selectUnpicklers (method : String) (die : Bool) (auto_remap : Bool) : List String :=
  let base :=
    if method = "pickle" then ["Pickle", "Pandas", "Encoded Pickle"]
    else if method = "dill" then ["Dill"]
    else ["Pickle", "Pandas", "Dill", "Encoded Pickle"]
  if die then base
  else base ++ [if auto_remap then "Robust (renaming)" else "Robust", "Ultrarobust"]

/-- The errors that _unpickler can raise itself: the ValueError of the
keyword check, and the aggregated Exception raised when the loop ends with
obj still None, carrying the recorded (strategy name, error message) pairs. -/
inductive UnpErr
  | valueError (msg : String)
  | exhausted (errors : List (String × String))
deriving DecidableEq, Repr

/-- The Python exception type name of an _unpickler error (a ValueError for
the keyword check; a plain Exception for the aggregated failure). -/
def unpErrKind : UnpErr → String
  | .valueError _ => "ValueError"
  | .exhausted _ => "Exception"

/-- Embedding of the strategy loop of _unpickler (lines 2275-2284).
run gives the outcome of each named strategy on the byte string being
loaded.  The loop starts with obj = None; on success it assigns obj and
breaks, on an exception it records the strategy name and message and
continues.  Returns the final obj, the recorded errors in order, and the
list of strategies that were attempted. -/
def unpicklerLoop (run : String → Except String PyObj) :
    List String → PyObj → List (String × String) → List String →
    PyObj × List (String × String) × List String
  | [], objv, errs, att => (objv, errs, att)
  | u :: rest, objv, errs, att =>
    match run u with
    | .ok o => (o, errs, att ++ [u])
    | .error m => unpicklerLoop run rest objv (errs ++ [(u, m)]) (att ++ [u])

/-- Embedding of _unpickler (lines 2241-2293): sanitize kwargs (raising
ValueError on the first invalid keyword, before any strategy runs), select
the strategy list, run the loop from obj = None, and afterwards raise the
aggregated error if obj is None (the isinstance(obj, Failed) branch only
prints and still returns obj, so it is not modeled separately).  Also
returns the list of attempted strategies. -/
def unpickler (run : String → Except String PyObj) (method : String)
    (die auto_remap : Bool) (kwargs : List String) :
    Except UnpErr PyObj × List String :=
  match checkKwargs kwargs with
  | .error m => (.error (.valueError m), [])
  | .ok _ =>
    let ups := selectUnpicklers method die auto_remap
    match unpicklerLoop run ups .pyNone [] [] with
    | (objv, errs, att) =>
      if objv = .pyNone then (.error (.exhausted errs), att)
      else (.ok objv, att)

/-- Reference chain semantics, written from the amended wording of the
execution claim: try the strategies in list order, recording each raising
strategy's message under its name and stopping at the first strategy that
returns without raising; return that result unless it is None; if every
strategy raises, or the first successful result is the value None (which
the code cannot distinguish from its failure sentinel), raise a single
aggregated error listing the recorded per-strategy messages. -/
def chainSpec (run : String → Except String PyObj) :
    List String → List (String × String) → Except UnpErr PyObj
  | [], errs => .error (.exhausted errs)
  | u :: rest, errs =>
    match run u with
    | .ok o => if o = .pyNone then .error (.exhausted errs) else .ok o
    | .error m => chainSpec run rest (errs ++ [(u, m)])

/-- An event during a call to load: a read of the source performed inside
_load_filestr (labelled with the cascade step doing the reading), or the
attempt of one deserialization strategy inside _unpickler. -/
inductive LoadEvent
  | readStep (s : LoadStep)
  | strategyAttempt (name : String)
deriving DecidableEq, Repr

/-- The error raised by load: either the _load_filestr error, propagated
unchanged (load does not wrap it), or an _unpickler error, re-raised by
load with the same exception type and a replacement message, the original
chained as cause (lines 170-176). -/
inductive LoadErr
  | fileError (e : FilestrError)
  | unpickleError (e : UnpErr)
deriving DecidableEq, Repr

/-- The Python exception type name of a load error. -/
def loadErrKind : LoadErr → String
  | .fileError e => e.kind
  | .unpickleError e => unpErrKind e

/-- Embedding of load (sc_fileio.py lines 128-184): first _load_filestr
reads the source into a byte string, then _unpickler is run on it; an
_unpickler exception is re-raised with the same type.  The event list
records, in order, every source read and every strategy attempt that
actually happened before the call returned or raised. -/
def load (filename : String) (oc : FileOutcomes) (run : String → Except String PyObj)
    (method : String) (die auto_remap : Bool) (kwargs : List String) :
    Except LoadErr PyObj × List LoadEvent :=
  match load_filestr filename oc with
  | (.error e, steps) => (.error (.fileError e), steps.map LoadEvent.readStep)
  | (.ok _filestr, steps) =>
    match unpickler run method die auto_remap kwargs with
    | (.error e, att) =>
      (.error (.unpickleError e),
       steps.map LoadEvent.readStep ++ att.map LoadEvent.strategyAttempt)
    | (.ok o, att) =>
      (.ok o, steps.map LoadEvent.readStep ++ att.map LoadEvent.strategyAttempt)

example :
    unpickler (fun _ => .error "boom") "dill" true true [] =
      (.error (.exhausted [("Dill", "boom")]), ["Dill"]) := by rfl

example :
    unpickler (fun s => if s = "Pandas" then .ok (.obj 3) else .error "x")
      "pickle" true true [] =
      (.ok (.obj 3), ["Pickle", "Pandas"]) := by rfl

/-- A value stored in (or returned through) a remapping dictionary, as
_remap_module distinguishes them: the Python value None (what dict.get
returns for an absent key), a string, a tuple of strings, or a type object
(identified here by its qualified name). -/
inductive PyVal
  | noneObj
  | strObj (s : String)
  | tupleObj (parts : List String)
  | typeObj (t : String)
deriving DecidableEq, Repr

/-- Embedding of remapping.get(key): the value under the exact key, or None
when the key is absent.  The dictionary is an association list whose first
matching entry wins. -/
def dictGet (d : List (String × PyVal)) (k : String) : PyVal :=
  match d.lookup k with
  | some v => v
  | none => .noneObj

/-- Split a character list at its last dot: some (before, after) when a dot
occurs, none otherwise. -/
def rsplitCharAux : List Char → Option (List Char × List Char)
  | [] => none
  | c :: rest =>
    match rsplitCharAux rest with
    | some (a, b) => some (c :: a, b)
    | none => if c = '.' then some ([], rest) else none

/-- Embedding of the Python expression s.rsplit(".", 1): a two-element list
splitting at the last dot, or the one-element list [s] when there is no
dot. -/
def rsplit1 (s : String) : List String :=
  match rsplitCharAux s.data with
  | some (a, b) => [String.mk a, String.mk b]
  | none => [s]

example : rsplit1 "foo.bar.Cat" = ["foo.bar", "Cat"] := by decide
example : rsplit1 "Cat" = ["Cat"] := by decide

/-- Embedding of _remap_module (sc_fileio.py lines 2157-2172).  imp models
getattr(importlib.import_module(m), n): it returns the resolved attribute
of a module or raises (with the message of the ModuleNotFoundError or
AttributeError).  The lookup key is the exact string module_name.name; a
string value is first converted to a tuple by splitting at its last dot;
then a None (absent key) leads to a direct import of (module_name, name), a
two-element tuple to an import of its parts, and anything else (a type
object, or a tuple of any other length) is returned directly. -/
def remap_module (imp : String → String → Except String PyVal)
    (remapping : List (String × PyVal)) (module_name name : String) :
    Except String PyVal :=
  let key := module_name ++ "." ++ name
  let obj0 := dictGet remapping key
  let obj1 := match obj0 with
    | .strObj s => PyVal.tupleObj (rsplit1 s)
    | o => o
  match obj1 with
  | .noneObj => imp module_name name
  | .tupleObj parts =>
    match parts with
    | [m, n] => imp m n
    | _ => .ok (.tupleObj parts)
  | o => .ok o

/-- The (module, attribute) import that _remap_module will attempt for a
given remapping and reference, or none when the remapped value is returned
directly without any import.  This is the same dispatch as remap_module,
used to state the retry behavior of find_class. -/
def remapImportPair (remapping : List (String × PyVal)) (module_name name : String) :
    Option (String × String) :=
  let key := module_name ++ "." ++ name
  let obj0 := dictGet remapping key
  let obj1 := match obj0 with
    | .strObj s => PyVal.tupleObj (rsplit1 s)
    | o => o
  match obj1 with
  | .noneObj => some (module_name, name)
  | .tupleObj parts =>
    match parts with
    | [m, n] => some (m, n)
    | _ => none
  | _ => none

/-- The built-in known_fixes table of _RenamingUnpickler (lines 2198-2201),
keyed by (module, class) pairs. -/
def known_fixes : List ((String × String) × List (String × PyVal)) :=
  [(("pandas.core.indexes.numeric", "Int64Index"),
    [("pandas.core.indexes.numeric.Int64Index", .strObj "pandas.core.indexes.api.Index")]),
   (("pandas.core.indexes.numeric", "Float64Index"),
    [("pandas.core.indexes.numeric.Float64Index", .strObj "pandas.core.indexes.api.Index")])]

/-- Embedding of self.remapping.update(fix): for lookup purposes the fix
entries take priority over existing entries with the same key. -/
def dictUpdate (d fix : List (String × PyVal)) : List (String × PyVal) := fix ++ d

/-- A Python exception object: id models object identity (a fresh id is
allocated at every raise), msg is its message.  The default Python equality
test between two exception objects compares identity, so two distinct
raises are never equal even with identical messages. -/
structure PyExn where
  id : Nat
  msg : String
deriving DecidableEq, Repr

/-- Python == on two exception objects (object identity). -/
def pyExnEq (a b : PyExn) : Bool := a.id == b.id

/-- Outcome of a call to _RenamingUnpickler.find_class: the class resolved,
or the method re-raised an exception, or the recursion did not terminate
within the given fuel bound. -/
inductive FindResult
  | found
  | raised (e : PyExn)
  | outOfFuel
deriving DecidableEq, Repr

/-- Embedding of _RenamingUnpickler.find_class (sc_fileio.py lines
2203-2220), with an explicit fuel bound on the recursion depth.  importMsg
gives, per module name, none when the module imports successfully (the
attribute is assumed present, which holds in the scenarios considered) and
some msg when importing raises ModuleNotFoundError with message msg; every
failing import allocates a fresh exception object, modeled by the counter
ctr.  The body calls the parent resolver (remap_module); on
ModuleNotFoundError E it re-raises when last_error == E (Python identity),
otherwise merges the known fix for (module_name, name) into the remapping
if there is one and recurses with last_error = E, and re-raises when there
is no fix.  (The elif module_name in self.known_fixes branch of the source
compares a string against tuple keys and can never match, so it is not
modeled.) -/
def find_class (importMsg : String → Option String) :
    Nat → List (String × PyVal) → String → String → Option PyExn → Nat →
    FindResult × Nat
  | 0, _, _, _, _, ctr => (.outOfFuel, ctr)
  | fuel + 1, remapping, module_name, name, last_error, ctr =>
    match remapImportPair remapping module_name name with
    | none => (.found, ctr)
    | some (m, _a) =>
      match importMsg m with
      | none => (.found, ctr)
      | some msg =>
        let E : PyExn := ⟨ctr, msg⟩
        if (match last_error with | some le => pyExnEq le E | none => false) then
          (.raised E, ctr + 1)
        else
          match known_fixes.lookup (module_name, name) with
          | some fix =>
            find_class importMsg fuel (dictUpdate remapping fix) module_name name (some E) (ctr + 1)
          | none => (.raised E, ctr + 1)

/-- An import environment in which both the deprecated pandas module and
its documented replacement module fail to import: every import raises
ModuleNotFoundError, each time with a fresh exception object. -/
def bothMissing : String → Option String := fun m => some ("No module named " ++ m)

example :
    (find_class bothMissing 3 [] "some.other.module" "Cls" none 0).1 =
      .raised ⟨0, "No module named some.other.module"⟩ := by decide

/-- The die argument of save: True, a falsy value (False or None), or the
string value never. -/
inductive DieOpt
  | dieTrue
  | dieFalse
  | dieNever
deriving DecidableEq, Repr

/-- The message of the ValueError raised by the empty-object guard of save. -/
def emptyErrMsg : String :=
  "No object was supplied to saveobj(), or the object was empty; if this is intentional, set die=never"

/-- Embedding of the empty-object guard of save (sc_fileio.py lines
306-310): if obj is None, and not allow_empty and die is not the string
never, raise a ValueError. -/
def save_empty_check (objv : PyObj) (allow_empty : Bool) (die : DieOpt) :
    Except String Unit :=
  if objv = .pyNone then
    if !allow_empty && die != .dieNever then .error emptyErrMsg
    else .ok ()
  else .ok ()

/-- A serialized byte string, modeled as the value it encodes (the pickle
codec is assumed correct for the values involved: dumps followed by loads
restores the value). -/
structure PickledBytes where
  payload : PyObj
deriving DecidableEq, Repr

/-- Model of pickle.dumps on the values this development manipulates. -/
def pickle_dumps (o : PyObj) : PickledBytes := ⟨o⟩

/-- Model of pickle.loads on bytes produced by pickle_dumps: succeeds and
restores the encoded value. -/
def pickle_loads (b : PickledBytes) : Except String PyObj := .ok b.payload

/-- Embedding of the part of save relevant to the empty-object claim
(lines 306-318): run the empty-object guard, then serialize the object;
compression wraps the same bytes and is dropped here (load's byte source is
modeled separately by FileOutcomes). -/
def save_obj (objv : PyObj) (allow_empty : Bool) (die : DieOpt) :
    Except String PickledBytes :=
  match save_empty_check objv allow_empty die with
  | .error m => .error m
  | .ok _ => .ok (pickle_dumps objv)

/-- The per-strategy outcomes that _unpickler sees when the byte string is
a valid plain pickle (e.g. the bytes save wrote for a plain value): every
unpickling strategy, strict or permissive, decodes it to the encoded
value. -/
def runStrategies (b : PickledBytes) : String → Except String PyObj :=
  fun _ => pickle_loads b

/-- One record of the failure ledger: the module name, class name, error
message and exception captured by makefailed (each argument defaults to
None in the source, hence the Option). -/
structure FailureRecord where
  module : Option String
  cls : Option String
  error : Option String
  exception : Option String
deriving DecidableEq, Repr

/-- The failure ledger: the class attribute Failed.failure_info, an odict
from synthetic keys to records.  It is declared on Failed and inherited
(not shadowed) by UniversalFailed, so both classes share the single
ledger. -/
def Ledger : Type := List (String × FailureRecord)

/-- Assignment into an odict: replace the value in place when the key is
already present, otherwise append the pair at the end. -/
def odictSet (l : List (String × FailureRecord)) (k : String) (v : FailureRecord) :
    List (String × FailureRecord) :=
  match l with
  | [] => [(k, v)]
  | (k0, v0) :: rest =>
    if k0 = k then (k, v) :: rest
    else (k0, v0) :: odictSet rest k v

/-- The two classes makefailed can return. -/
inductive FailedClassKind
  | failedClass
  | universalFailedClass
deriving DecidableEq, Repr

/-- Embedding of makefailed (sc_fileio.py lines 2145-2154): given the
current shared ledger, pick the base class (UniversalFailed when universal,
else Failed), build the key Failure n with n = current ledger size + 1,
assign the four-field record under that key, and return the class itself
(not an instance).  The new ledger and the returned class are both
returned. -/
def makefailed (ledger : List (String × FailureRecord))
    (module_name name error exception : Option String) (universal : Bool) :
    List (String × FailureRecord) × FailedClassKind :=
  let key := "Failure " ++ toString (ledger.length + 1)
  (odictSet ledger key ⟨module_name, name, error, exception⟩,
   if universal then .universalFailedClass else .failedClass)

example :
    makefailed [] (some "m") (some "C") (some "e") none false =
      ([("Failure 1", ⟨some "m", some "C", some "e", none⟩)], .failedClass) := by decide

/-!
## Supporting lemmas
-/

/-- Every execution of _load_filestr performs the gzip read first. -/
theorem load_filestr_reads_gzip (fn : String) (oc : FileOutcomes) :
    LoadStep.gzipStep ∈ (load_filestr fn oc).2 := by
  unfold load_filestr
  split
  all_goals try split
  all_goals try split
  all_goals try split
  all_goals try split
  all_goals try split
  all_goals simp

/-- Assigning a fresh key into an odict appends the pair at the end. -/
theorem odictSet_fresh (l : List (String × FailureRecord)) (k : String) (v : FailureRecord)
    (h : k ∉ l.map Prod.fst) : odictSet l k v = l ++ [(k, v)] := by
  induction l with
  | nil => rfl
  | cons p rest ih =>
    simp only [List.map_cons, List.mem_cons, not_or] at h
    simp only [odictSet, List.cons_append]
    rw [if_neg (fun hq => h.1 hq.symm), ih h.2]

/-- The kwargs check raises at the first keyword outside the allow-list. -/
theorem checkKwargs_invalid (ks1 ks2 : List String) (k : String)
    (h1 : ∀ x ∈ ks1, x ∈ valid_kwargs) (hk : k ∉ valid_kwargs) :
    checkKwargs (ks1 ++ k :: ks2) = .error (kwErrMsg k) := by
  induction ks1 with
  | nil => simp [checkKwargs, hk]
  | cons a rest ih =>
    have ha : a ∈ valid_kwargs := h1 a (by simp)
    simp only [List.cons_append, checkKwargs, if_pos ha]
    exact ih (fun x hx => h1 x (by simp [hx]))

/-!
## C5: the decompression cascade of _load_filestr
-/

/-- C5 counterexample: with all four reads failing, the error actually
raised by _load_filestr bundles the generic gzip template and the three
fallback messages, but the message of the original gzip error (here
"gzip header mismatch") does not appear among the message parts: it only
survives as the chained cause.  This refutes the claim that the raised
error bundles all four underlying error messages. -/
theorem load_filestr_bundle_cx :
    (load_filestr "f.obj"
      { gzipRead := .error ⟨"BadGzipFile", "gzip header mismatch"⟩,
        zstdRead := .error "zstd failure", binRead := .error "binary failure",
        textRead := .error "text failure" }).1 =
      .error { kind := "BadGzipFile",
               msgParts := [gziperrorText "f.obj", "zstd failure", "binary failure",
                            "text failure"],
               cause := some "gzip header mismatch" } ∧
    "gzip header mismatch" ∉
      [gziperrorText "f.obj", "zstd failure", "binary failure", "text failure"] :=
  ⟨rfl, by decide⟩

/-- C5 (amended): for every existing source whose bytes are not gzip data
(the gzip read raises BadGzipFile), _load_filestr tries the cascade
strictly in the order gzip, zstandard, raw binary, raw text, each later
step attempted only if the previous one raised; if all four fail it raises
one BadGzipFile error whose message bundles the generic gzip-failure
template and the three fallback error messages, with the original gzip
error attached as the chained cause rather than included in the message. -/
theorem load_filestr_cascade (fn : String) (oc : FileOutcomes) (e : GzError)
    (hg : oc.gzipRead = .error e) (hk : e.tyName = "BadGzipFile") :
    (∀ s, oc.zstdRead = .ok s →
      load_filestr fn oc = (.ok s, [.gzipStep, .zstdStep])) ∧
    (∀ e2 s, oc.zstdRead = .error e2 → oc.binRead = .ok s →
      load_filestr fn oc = (.ok s, [.gzipStep, .zstdStep, .binStep])) ∧
    (∀ e2 e3 s, oc.zstdRead = .error e2 → oc.binRead = .error e3 → oc.textRead = .ok s →
      load_filestr fn oc = (.ok s, [.gzipStep, .zstdStep, .binStep, .textStep])) ∧
    (∀ e2 e3 e4, oc.zstdRead = .error e2 → oc.binRead = .error e3 → oc.textRead = .error e4 →
      load_filestr fn oc =
        (.error { kind := "BadGzipFile",
                  msgParts := [gziperrorText fn, e2, e3, e4],
                  cause := some e.msg },
         [.gzipStep, .zstdStep, .binStep, .textStep])) := by
  refine ⟨?_, ?_, ?_, ?_⟩
  · intro s hz
    simp [load_filestr, hg, hk, hz]
  · intro e2 s hz hb
    simp [load_filestr, hg, hk, hz, hb]
  · intro e2 e3 s hz hb ht
    simp [load_filestr, hg, hk, hz, hb, ht]
  · intro e2 e3 e4 hz hb ht
    simp [load_filestr, hg, hk, hz, hb, ht]

/-- Witness for C5: the cascade theorem applied at a concrete input whose
zstandard read succeeds. -/
theorem load_filestr_cascade_witness :
    load_filestr "w.obj"
      { gzipRead := .error ⟨"BadGzipFile", "bad magic"⟩, zstdRead := .ok "zzz",
        binRead := .error "b", textRead := .error "t" } =
      (.ok "zzz", [.gzipStep, .zstdStep]) :=
  (load_filestr_cascade "w.obj" _ ⟨"BadGzipFile", "bad magic"⟩ rfl rfl).1 "zzz" rfl

/-!
## C6: a missing file propagates immediately
-/

/-- C6: when the source does not exist (the gzip open raises
FileNotFoundError), load raises that error directly: the error kind and
message are the original ones (no bad-gzip style template is added, and
nothing is chained), and the event trace shows that no zstandard, raw
binary or raw text fallback and no unpickling strategy was attempted. -/
theorem load_notfound_immediate (fn : String) (oc : FileOutcomes)
    (run : String → Except String PyObj) (method : String) (die ar : Bool)
    (kwargs : List String) (e : GzError)
    (hg : oc.gzipRead = .error e) (hk : e.tyName = "FileNotFoundError") :
    load fn oc run method die ar kwargs =
      (.error (.fileError { kind := "FileNotFoundError", msgParts := [e.msg], cause := none }),
       [LoadEvent.readStep .gzipStep]) := by
  simp [load, load_filestr, hg, hk]

/-- Witness for C6 at a concrete missing file. -/
theorem load_notfound_immediate_witness :
    load "missing.obj"
      { gzipRead := .error ⟨"FileNotFoundError", "No such file or directory"⟩,
        zstdRead := .error "z", binRead := .error "b", textRead := .error "t" }
      (fun _ => .error "x") "pickle" false true [] =
      (.error (.fileError { kind := "FileNotFoundError",
                            msgParts := ["No such file or directory"], cause := none }),
       [LoadEvent.readStep .gzipStep]) :=
  load_notfound_immediate "missing.obj" _ _ "pickle" false true []
    ⟨"FileNotFoundError", "No such file or directory"⟩ rfl rfl

/-!
## C7: the strategy lists
-/

/-- Modelled from the claim wording for comparison: for method auto, the
union of both families with the primary-format family
{Pickle, Pandas, Encoded Pickle} first, then the dill family. -/
def claimAutoOrder : List String := ["Pickle", "Pandas", "Encoded Pickle", "Dill"]

/-- C7 counterexample: the list _unpickler actually uses for method auto
interleaves Dill before Encoded Pickle, so the primary-format family is not
first as a block, contrary to the claim. -/
theorem selectUnpicklers_auto_order_cx :
    selectUnpicklers "auto" true true = ["Pickle", "Pandas", "Dill", "Encoded Pickle"] ∧
    selectUnpicklers "auto" true true ≠ claimAutoOrder := by
  exact ⟨rfl, by decide⟩

/-- C7 (amended): the strategy list is, for method pickle, exactly
Pickle, Pandas, Encoded Pickle in that order; for dill, only Dill; for auto
(and any other non-pickle non-dill method) Pickle, Pandas, Dill, Encoded
Pickle, i.e. the union of both families starting with the primary format
but with Dill inserted before Encoded Pickle; and when die is falsy exactly
two permissive strategies are appended at the end in order: Robust
(renaming) if auto_remap else Robust, followed by Ultrarobust. -/
theorem selectUnpicklers_spec (ar : Bool) :
    selectUnpicklers "pickle" true ar = ["Pickle", "Pandas", "Encoded Pickle"] ∧
    selectUnpicklers "dill" true ar = ["Dill"] ∧
    selectUnpicklers "auto" true ar = ["Pickle", "Pandas", "Dill", "Encoded Pickle"] ∧
    (∀ method : String, selectUnpicklers method false ar =
      selectUnpicklers method true ar ++
        [if ar then "Robust (renaming)" else "Robust", "Ultrarobust"]) := by
  refine ⟨rfl, rfl, rfl, ?_⟩
  intro method
  simp [selectUnpicklers]

/-!
## C9: the failure ledger
-/

/-- C9: calling makefailed on a ledger that does not already contain the
key Failure (size + 1) (which holds of every ledger built by makefailed
alone, the only mutator of the ledger in the module) appends exactly one
record at the end, keyed Failure n with n = previous size + 1 and storing
the module name, class name, error message and exception; all previous
entries are preserved unchanged, the size grows by exactly one, and the
returned value is a class (UniversalFailed when universal, else Failed),
not an instance. -/
theorem makefailed_appends (ledger : List (String × FailureRecord))
    (m n e x : Option String) (u : Bool)
    (h : ("Failure " ++ toString (ledger.length + 1)) ∉ ledger.map Prod.fst) :
    (makefailed ledger m n e x u).1 =
      ledger ++ [("Failure " ++ toString (ledger.length + 1), ⟨m, n, e, x⟩)] ∧
    (makefailed ledger m n e x u).1.length = ledger.length + 1 ∧
    (makefailed ledger m n e x u).2 =
      (if u then .universalFailedClass else .failedClass) := by
  have happ := odictSet_fresh ledger ("Failure " ++ toString (ledger.length + 1)) ⟨m, n, e, x⟩ h
  refine ⟨happ, ?_, rfl⟩
  show (odictSet ledger _ _).length = _
  rw [happ]
  simp

/-- Witness for C9: appending the second failure to a one-entry ledger. -/
theorem makefailed_appends_witness :
    (makefailed [("Failure 1", ⟨some "m1", some "C1", some "e1", none⟩)]
        (some "m2") (some "C2") (some "e2") (some "tb") true).1 =
      [("Failure 1", ⟨some "m1", some "C1", some "e1", none⟩),
       ("Failure 2", ⟨some "m2", some "C2", some "e2", some "tb"⟩)] :=
  (makefailed_appends [("Failure 1", ⟨some "m1", some "C1", some "e1", none⟩)]
    (some "m2") (some "C2") (some "e2") (some "tb") true (by decide)).1

/-!
## C10: an unrecognized method silently behaves like auto
-/

/-- C10: for any method string other than pickle and dill, _unpickler
raises no configuration error for the method argument: it selects the full
union strategy list Pickle, Pandas, Dill, Encoded Pickle and behaves
exactly as it does for method auto, for every die and auto_remap setting
and every run outcome. -/
theorem unpickler_unknown_method (run : String → Except String PyObj)
    (method : String) (die ar : Bool) (kwargs : List String)
    (h1 : method ≠ "pickle") (h2 : method ≠ "dill") :
    selectUnpicklers method die ar = selectUnpicklers "auto" die ar ∧
    selectUnpicklers method true ar = ["Pickle", "Pandas", "Dill", "Encoded Pickle"] ∧
    unpickler run method die ar kwargs = unpickler run "auto" die ar kwargs := by
  have hsel : ∀ d : Bool, selectUnpicklers method d ar = selectUnpicklers "auto" d ar := by
    intro d
    simp [selectUnpicklers, h1, h2]
  refine ⟨hsel die, ?_, ?_⟩
  · rw [hsel true]; rfl
  · simp [unpickler, hsel die]

/-- Witness for C10: a misspelled method selects the auto list. -/
theorem unpickler_unknown_method_witness :
    selectUnpicklers "pckle" true true = ["Pickle", "Pandas", "Dill", "Encoded Pickle"] :=
  (unpickler_unknown_method (fun _ => .error "x") "pckle" true true []
    (by decide) (by decide)).2.1

/-!
## C1: the keyword allow-list check of load
-/

/-- C1 counterexample: calling load with the unsupported keyword bad_kw on
an existing readable source does raise the ValueError of the keyword check,
but only after the source bytes have been read: the event trace of the call
contains the source-read event (and no strategy attempt).  This refutes the
part of the claim that says the error is raised before any bytes of the
source are read: _load_filestr runs to completion before _unpickler ever
sees the keyword arguments. -/
theorem load_invalid_kwarg_cx :
    load "f.obj"
      { gzipRead := .ok "bytes", zstdRead := .error "z", binRead := .error "b",
        textRead := .error "t" }
      (fun _ => .ok (.obj 1)) "pickle" false true ["bad_kw"] =
      (.error (.unpickleError (.valueError (kwErrMsg "bad_kw"))),
       [LoadEvent.readStep .gzipStep]) := by rfl

/-- C1 (amended): for every call to load on a readable source (one on
which _load_filestr succeeds) with a keyword argument outside the allow-
list fix_imports, encoding, errors, buffers, ignore, a ValueError is raised
for the first such keyword; it is raised after the source bytes are read
(the gzip read event is in the trace) but before any deserialization
strategy is attempted (the trace contains only the read events of
_load_filestr and no strategy attempt). -/
theorem load_invalid_kwarg (fn : String) (oc : FileOutcomes)
    (run : String → Except String PyObj) (method : String) (die ar : Bool)
    (ks1 ks2 : List String) (k : String) (b : String)
    (hfs : (load_filestr fn oc).1 = .ok b)
    (h1 : ∀ x ∈ ks1, x ∈ valid_kwargs)
    (hk : k ∉ valid_kwargs) :
    (load fn oc run method die ar (ks1 ++ k :: ks2)).1 =
      .error (.unpickleError (.valueError (kwErrMsg k))) ∧
    (load fn oc run method die ar (ks1 ++ k :: ks2)).2 =
      (load_filestr fn oc).2.map LoadEvent.readStep ∧
    LoadEvent.readStep .gzipStep ∈ (load fn oc run method die ar (ks1 ++ k :: ks2)).2 := by
  have hck := checkKwargs_invalid ks1 ks2 k h1 hk
  have hgz := load_filestr_reads_gzip fn oc
  rcases hl : load_filestr fn oc with ⟨fr, steps⟩
  rw [hl] at hfs
  simp only at hfs
  subst hfs
  rw [hl] at hgz
  simp only at hgz
  have : load fn oc run method die ar (ks1 ++ k :: ks2) =
      (.error (.unpickleError (.valueError (kwErrMsg k))),
       steps.map LoadEvent.readStep) := by
    simp [load, hl, unpickler, hck]
  rw [this]
  refine ⟨rfl, rfl, ?_⟩
  simp only [List.mem_map]
  exact ⟨.gzipStep, hgz, rfl⟩

/-- Witness for C1: a concrete invalid keyword after one valid keyword. -/
theorem load_invalid_kwarg_witness :
    (load "w.obj"
      { gzipRead := .ok "bb", zstdRead := .error "z", binRead := .error "b",
        textRead := .error "t" }
      (fun _ => .error "x") "dill" true false ["encoding", "nope"]).1 =
      .error (.unpickleError (.valueError (kwErrMsg "nope"))) :=
  (load_invalid_kwarg "w.obj"
    { gzipRead := .ok "bb", zstdRead := .error "z", binRead := .error "b",
      textRead := .error "t" }
    (fun _ => .error "x") "dill" true false ["encoding"] [] "nope" "bb"
    rfl (by decide) (by decide)).1

/-!
## C2: the strategy loop of _unpickler
-/

/-- C2 counterexample: a run in which the very first strategy, Pickle,
returns without raising, producing the value None (as happens when the byte
string is a pickle of None).  The claim says the loop returns that result
and raises the aggregated error only if every strategy raises; instead
_unpickler raises the aggregated error (with an empty per-strategy message
list, since nothing raised), because the final obj-is-None test cannot
distinguish a successfully decoded None from its own failure sentinel. -/
theorem unpickler_none_result_cx :
    (fun s => if s = "Pickle" then Except.ok PyObj.pyNone
              else Except.error "strategy failure") "Pickle" = .ok .pyNone ∧
    unpickler
      (fun s => if s = "Pickle" then Except.ok PyObj.pyNone
                else Except.error "strategy failure")
      "pickle" true true [] =
      (.error (.exhausted []), ["Pickle"]) :=
  ⟨rfl, rfl⟩

/-- The strategy loop, started from obj = None, implements the reference
chain semantics of chainSpec. -/
theorem unpicklerLoop_chainSpec (run : String → Except String PyObj) :
    ∀ (l : List String) (errs : List (String × String)) (att : List String),
      chainSpec run l errs =
        (if (unpicklerLoop run l .pyNone errs att).1 = .pyNone
         then .error (.exhausted (unpicklerLoop run l .pyNone errs att).2.1)
         else .ok (unpicklerLoop run l .pyNone errs att).1) := by
  intro l
  induction l with
  | nil => intro errs att; simp [unpicklerLoop, chainSpec]
  | cons u rest ih =>
    intro errs att
    rcases h : run u with m | o
    · simp only [unpicklerLoop, chainSpec, h]
      exact ih (errs ++ [(u, m)]) (att ++ [u])
    · simp [unpicklerLoop, chainSpec, h]

/-- C2 (amended): for every byte string (run gives the per-strategy
outcomes on it) and every strategy list selected by _unpickler, the
strategies are tried in list order; each strategy that raises has its error
message recorded under its name and the next strategy is tried; the loop
stops at the first strategy that returns without raising and that result is
returned, unless it is the value None, in which case (exactly as when every
strategy raises) _unpickler raises a single aggregated error listing the
per-strategy messages recorded so far.  This is stated as equality with the
reference chain semantics chainSpec. -/
theorem unpickler_chain_equiv (run : String → Except String PyObj)
    (method : String) (die ar : Bool) :
    (unpickler run method die ar []).1 =
      chainSpec run (selectUnpicklers method die ar) [] := by
  rw [unpicklerLoop_chainSpec run (selectUnpicklers method die ar) [] []]
  rcases h : unpicklerLoop run (selectUnpicklers method die ar) .pyNone [] []
    with ⟨objv, errs, att⟩
  simp only [unpickler, checkKwargs, h]
  split <;> rfl

/-!
## C4: saving and loading None
-/

/-- C4: the save-side guard behaves as claimed (saving None without
allow_empty and with die not equal to never raises; with allow_empty it
succeeds), and the saved bytes decode back to None under pickle; but
loading them does not return None: _unpickler raises its aggregated
all-methods-failed error, even though the Pickle strategy succeeded,
because the restored value None is indistinguishable from the obj-is-None
failure sentinel of the loop.  The round-trip part of the claim therefore
fails on the code. -/
theorem save_none_roundtrip_bug :
    save_obj .pyNone false .dieFalse = .error emptyErrMsg ∧
    save_obj .pyNone false .dieTrue = .error emptyErrMsg ∧
    save_obj .pyNone true .dieFalse = .ok (pickle_dumps .pyNone) ∧
    pickle_loads (pickle_dumps .pyNone) = .ok .pyNone ∧
    (unpickler (runStrategies (pickle_dumps .pyNone)) "pickle" false true []).1 =
      .error (.exhausted []) :=
  ⟨rfl, rfl, rfl, rfl, rfl⟩

/-!
## C8: exact-key class remapping
-/

/-- C8: class resolution builds the exact key module_name.name; a string
value under that key is split at its last dot and the two parts are
imported; a 2-tuple value is imported the same way; a type-object value is
returned directly; an absent key leads to a direct import of
(module_name, name) unmodified; and the result depends only on the value
the remapping holds under that exact key (no wildcard or prefix matching),
stated as: any two remappings agreeing on the exact key give the same
result. -/
theorem remap_module_spec (imp : String → String → Except String PyVal)
    (remapping : List (String × PyVal)) (module_name name : String) :
    (∀ s m2 n2, dictGet remapping (module_name ++ "." ++ name) = .strObj s →
      rsplit1 s = [m2, n2] →
      remap_module imp remapping module_name name = imp m2 n2) ∧
    (∀ m2 n2, dictGet remapping (module_name ++ "." ++ name) = .tupleObj [m2, n2] →
      remap_module imp remapping module_name name = imp m2 n2) ∧
    (∀ t, dictGet remapping (module_name ++ "." ++ name) = .typeObj t →
      remap_module imp remapping module_name name = .ok (.typeObj t)) ∧
    (dictGet remapping (module_name ++ "." ++ name) = .noneObj →
      remap_module imp remapping module_name name = imp module_name name) ∧
    (∀ remapping2 : List (String × PyVal),
      dictGet remapping2 (module_name ++ "." ++ name) =
        dictGet remapping (module_name ++ "." ++ name) →
      remap_module imp remapping2 module_name name =
        remap_module imp remapping module_name name) := by
  refine ⟨?_, ?_, ?_, ?_, ?_⟩
  · intro s m2 n2 hget hsplit
    simp [remap_module, hget, hsplit]
  · intro m2 n2 hget
    simp [remap_module, hget]
  · intro t hget
    simp [remap_module, hget]
  · intro hget
    simp [remap_module, hget]
  · intro remapping2 hagree
    simp only [remap_module]
    rw [hagree]

/-- Witness for C8: a string remap entry under the exact key foo.Bar is
split at its last dot and resolved through the import function. -/
theorem remap_module_spec_witness :
    remap_module (fun m n => .ok (.typeObj (m ++ ":" ++ n)))
      [("foo.Bar", .strObj "cat.Mat")] "foo" "Bar" = .ok (.typeObj "cat:Mat") :=
  ((remap_module_spec (fun m n => .ok (.typeObj (m ++ ":" ++ n)))
      [("foo.Bar", .strObj "cat.Mat")] "foo" "Bar").1 "cat.Mat" "cat" "Mat"
    (by decide) (by decide)).trans rfl

/-!
## C3: the auto-remap retry guard of find_class
-/

/-- Once the known fix for Int64Index is in the remapping and the
replacement module pandas.core.indexes.api cannot be imported either,
find_class never terminates: every retry raises a fresh ModuleNotFoundError
object, the guard last_error == E compares object identity (the id of the
previous error is always smaller than every freshly allocated id) and so
never fires, and the known-fix branch keeps recursing.  For every fuel
bound the call is still running when the fuel runs out. -/
theorem find_class_loop_stuck (importMsg : String → Option String) (msg2 : String)
    (h2 : importMsg "pandas.core.indexes.api" = some msg2) :
    ∀ (fuel : Nat) (R : List (String × PyVal)) (le : PyExn) (ctr : Nat),
      dictGet R "pandas.core.indexes.numeric.Int64Index" =
        .strObj "pandas.core.indexes.api.Index" →
      le.id < ctr →
      (find_class importMsg fuel R "pandas.core.indexes.numeric" "Int64Index"
        (some le) ctr).1 = .outOfFuel := by
  intro fuel
  induction fuel with
  | zero => intro R le ctr hR hlt; rfl
  | succ n ih =>
    intro R le ctr hR hlt
    have hr : rsplit1 "pandas.core.indexes.api.Index" =
        ["pandas.core.indexes.api", "Index"] := by decide
    have hpair : remapImportPair R "pandas.core.indexes.numeric" "Int64Index" =
        some ("pandas.core.indexes.api", "Index") := by
      simp [remapImportPair, hR, hr]
    have hne : (le.id == ctr) = false := by
      simp [Nat.ne_of_lt hlt]
    have hlk : known_fixes.lookup ("pandas.core.indexes.numeric", "Int64Index") =
        some [("pandas.core.indexes.numeric.Int64Index",
               PyVal.strObj "pandas.core.indexes.api.Index")] := by decide
    have hkeq : (("pandas.core.indexes.numeric.Int64Index" : String) ==
        "pandas.core.indexes.numeric.Int64Index") = true := by decide
    have hR2 : dictGet
        (dictUpdate R [("pandas.core.indexes.numeric.Int64Index",
                        PyVal.strObj "pandas.core.indexes.api.Index")])
        "pandas.core.indexes.numeric.Int64Index" =
        .strObj "pandas.core.indexes.api.Index" := by
      simp [dictGet, dictUpdate, List.lookup, hkeq]
    simp only [find_class, hpair, h2, pyExnEq, hne, hlk]
    exact ih _ ⟨ctr, msg2⟩ (ctr + 1) hR2 (Nat.lt_succ_self ctr)

/-- C3 evaluated on the failing scenario: loading a stream that references
the known-deprecated class pandas.core.indexes.numeric.Int64Index in an
environment where the documented replacement pandas.core.indexes.api
cannot be imported either.  The claim (and the source comment at the
last_error == E guard) says find_class retries exactly once and then
terminates by re-raising; instead, for every recursion bound the call has
neither returned nor raised: the retry never terminates through the guard,
because each raise is a fresh exception object and the identity comparison
never succeeds. -/
theorem find_class_known_fix_nonterminating :
    ∀ fuel ctr : Nat,
      (find_class bothMissing fuel [] "pandas.core.indexes.numeric" "Int64Index"
        none ctr).1 = .outOfFuel := by
  intro fuel ctr
  cases fuel with
  | zero => rfl
  | succ n =>
    have hp0 : remapImportPair [] "pandas.core.indexes.numeric" "Int64Index" =
        some ("pandas.core.indexes.numeric", "Int64Index") := by decide
    have hlk : known_fixes.lookup ("pandas.core.indexes.numeric", "Int64Index") =
        some [("pandas.core.indexes.numeric.Int64Index",
               PyVal.strObj "pandas.core.indexes.api.Index")] := by decide
    simp only [find_class, hp0, bothMissing, hlk]
    exact find_class_loop_stuck bothMissing _ rfl n _ _ (ctr + 1) (by decide)
      (Nat.lt_succ_self ctr)

end Sciris
